import Mathlib

/-!
Shallow embedding of the `goller` SQS consumer library (Go).

Sources embedded here:
  * `job.go`      — the `sqsJob` lease: `Attribute`, `ID`, `Body`, `Tries`,
                    `Handled`, `Delete`, `Release`, `Backoff`.
  * `goller.go`   — the consumer loop `receive` and the batch dispatcher
                    `handleResponse` (per-invocation outcome accounting).
  * `config.go`   — `Config` / `ConsumerConfig` / `JobConfig` and the default
                    backoff calculation from `NewDefaultConfig`.

Modelling conventions:
  * Go `*string` / `*int64` become `Option String` / `Option Int`; a nil
    pointer dereference is modelled by the `PanicOr.panic` outcome.
  * Go `(T, error)` pairs become either `T × Option GoErr` (when the code
    returns both, as `Tries` does) or an explicit error value.
  * Go maps become association lists with `List.lookup`.
  * The SQS transport (`sqsiface.SQSAPI`) becomes a record of response
    functions; every transport request issued is recorded in a
    `List TransportCall` trace so that "number of transport calls" is
    observable.
  * `math/rand` draws are modelled by an explicit parameter `r` standing for
    the value returned by `rand.Int63n 30`.
  * Logging calls are modelled only through their side effects that matter
    semantically: the `logrus` field helpers in `job.go` and `goller.go`
    evaluate `j.ID()`, which dereferences `msg.MessageId` and therefore
    panics when the id is absent.  Time measurement and metric gauges are
    pure observability and are not modelled; the outcome *counters* of
    `handleResponse` are modelled explicitly (`Counters`).
-/

/-- Result of running Go code that may panic (e.g. a nil-pointer
dereference) instead of returning a value of type `α`. -/
inductive PanicOr (α : Type) where
  | panic (msg : String)
  | ok (a : α)
deriving DecidableEq, Repr

/-- Go `error` values that appear in the embedded code.  `alreadyHandled` is
the package-level `ErrAlreadyHandled`; `errorNew s` is `errors.New(s)`;
`numError fn num msg` is the `strconv.NumError` produced by `ParseInt`;
transport stubs return arbitrary `GoErr` values. -/
inductive GoErr where
  | alreadyHandled
  | errorNew (msg : String)
  | numError (fn : String) (num : String) (msg : String)
deriving DecidableEq, Repr

/-- `sqs.MessageAttributeValue` (only the field the code reads). -/
structure MessageAttributeValue where
  StringValue : Option String
deriving DecidableEq, Repr

/-- `sqs.Message` (the fields the code reads).  Pointer-typed fields are
`Option`; the two attribute maps are association lists. -/
structure Message where
  MessageId : Option String
  Body : Option String
  ReceiptHandle : Option String
  MessageAttributes : List (String × MessageAttributeValue)
  Attributes : List (String × String)
deriving DecidableEq, Repr

/-- `sqs.DeleteMessageInput` (fields set by `sqsJob.Delete`). -/
structure DeleteMessageInput where
  QueueUrl : Option String
  ReceiptHandle : Option String
deriving DecidableEq, Repr

/-- `sqs.ChangeMessageVisibilityInput` (fields set by `sqsJob.Release`). -/
structure ChangeMessageVisibilityInput where
  QueueUrl : Option String
  ReceiptHandle : Option String
  VisibilityTimeout : Option Int
deriving DecidableEq, Repr

/-- One request issued against the SQS transport.  The receive request of the consumer loop is recorded without its input (its parameters play no role
in the claims about call counts). -/
inductive TransportCall where
  | deleteMessage (input : DeleteMessageInput)
  | changeMessageVisibility (input : ChangeMessageVisibilityInput)
  | receiveMessage
deriving DecidableEq, Repr

/-- The SQS transport stub (`sqsiface.SQSAPI` as used by `job.go`): for each
request shape, the error the transport answers with (`none` = success). -/
structure SQSAPI where
  deleteMessage : DeleteMessageInput → Option GoErr
  changeMessageVisibility : ChangeMessageVisibilityInput → Option GoErr

/-- `JobConfig` from `config.go`. -/
structure JobConfig where
  BackoffCalc : Int → Int
  MinVisibilityTimeout : Int
  MaxVisibilityTimeout : Int

/-- `ConsumerConfig` from `config.go`.  `RetrievalErrWait` and `RunSlowly`
are `time.Duration` values (nanoseconds). -/
structure ConsumerConfig where
  Count : Int
  RetrievalErrWait : Int
  RetrievalMaxNumberOfMessages : Int
  RetrievalVisibilityTimeout : Int
  RetrievalWaitTimeSeconds : Int
  RunOnce : Bool
  RunSlowly : Int

/-- `Config` from `config.go`. -/
structure Config where
  Consumer : ConsumerConfig
  Job : JobConfig
  QueueURL : String

/-- The `sqsJob` struct from `job.go` (logger omitted; the transport handle
`svc` is stored as in the source). -/
structure sqsJob where
  cfg : Config
  handled : Bool
  msg : Message
  svc : SQSAPI

/-- `NewJob` from `job.go`: `handled` starts at its zero value `false`. -/
def NewJob (cfg : Config) (msg : Message) (svc : SQSAPI) : sqsJob :=
  { cfg := cfg, handled := false, msg := msg, svc := svc }

/-- Result of one `sqsJob` method call: the returned value (or a panic), the
job state after the call, and the transport requests issued during it. -/
structure JobOp (α : Type) where
  result : PanicOr α
  job : sqsJob
  calls : List TransportCall

/-- Panic message for dereferencing an absent (`nil`) pointer. -/
def nilDeref : String := "runtime error: invalid memory address or nil pointer dereference"

/-- `sqsJob.Attribute` from `job.go`: look in the sender-set
`MessageAttributes` first — dereferencing `a.StringValue` unconditionally —
then fall through to the queue-set `Attributes`, else `("", false)`. -/
def sqsJob.Attribute (j : sqsJob) (attr : String) : PanicOr (String × Bool) :=
  match j.msg.MessageAttributes.lookup attr with
  | some a =>
    match a.StringValue with
    | some s => .ok (s, true)
    | none => .panic nilDeref
  | none =>
    match j.msg.Attributes.lookup attr with
    | some a => .ok (a, true)
    | none => .ok ("", false)

/-- `sqsJob.ID` from `job.go`: dereferences `j.msg.MessageId`. -/
def sqsJob.ID (j : sqsJob) : PanicOr String :=
  match j.msg.MessageId with
  | some s => .ok s
  | none => .panic nilDeref

/-- `aws.StringValue`: dereference with `""` for nil. -/
def awsStringValue : Option String → String
  | some s => s
  | none => ""

/-- `sqsJob.Body` from `job.go`. -/
def sqsJob.Body (j : sqsJob) : String × Option GoErr :=
  let body := awsStringValue j.msg.Body
  if body.length = 0 then ("", some (GoErr.errorNew "job body is empty"))
  else (body, none)

/-- Accumulate a run of decimal digits into a natural number; `none` when a
non-digit character is met. -/
def decDigitsAux : List Char → Nat → Option Nat
  | [], acc => some acc
  | c :: cs, acc =>
    if c.isDigit then decDigitsAux cs (acc * 10 + (c.toNat - 48)) else none

/-- `strconv.ParseInt(s, 10, 64)`: optional sign, decimal digits, result
clamped to the int64 range with a range error, `(0, syntax error)` on
malformed input.  Returns the Go `(value, error)` pair. -/
def strconvParseInt (s : String) : Int × Option GoErr :=
  let cs := s.toList
  let signDigits : Bool × List Char :=
    match cs with
    | '+' :: rest => (false, rest)
    | '-' :: rest => (true, rest)
    | _ => (false, cs)
  match signDigits with
  | (neg, digits) =>
    match digits with
    | [] => (0, some (GoErr.numError "ParseInt" s "invalid syntax"))
    | _ :: _ =>
      match decDigitsAux digits 0 with
      | none => (0, some (GoErr.numError "ParseInt" s "invalid syntax"))
      | some n =>
        if neg then
          if (n : Int) > 2 ^ 63 then
            (-(2 ^ 63), some (GoErr.numError "ParseInt" s "value out of range"))
          else (-(n : Int), none)
        else
          if (n : Int) ≥ 2 ^ 63 then
            (2 ^ 63 - 1, some (GoErr.numError "ParseInt" s "value out of range"))
          else ((n : Int), none)

/-- `sqs.MessageSystemAttributeNameApproximateReceiveCount`. -/
def approximateReceiveCount : String := "ApproximateReceiveCount"

/-- `sqsJob.Tries` from `job.go`: read the delivery-count attribute (missing
⇒ `errors.New` failure), parse it with `strconv.ParseInt`, decrement only
when the parsed value is positive, and return the Go `(tries, err)` pair.
A panic from `Attribute` (nil `StringValue`) propagates. -/
def sqsJob.Tries (j : sqsJob) : PanicOr (Int × Option GoErr) :=
  match sqsJob.Attribute j approximateReceiveCount with
  | .panic m => .panic m
  | .ok (count, ok) =>
    if ok = false then
      .ok (0, some (GoErr.errorNew "failed to get recieve count off sqs message"))
    else
      match strconvParseInt count with
      | (tries, err) => .ok (if tries > 0 then tries - 1 else tries, err)

/-- `sqsJob.Handled` from `job.go`. -/
def sqsJob.Handled (j : sqsJob) : Bool := j.handled

/-- The `sqs.DeleteMessageInput` built by `sqsJob.Delete`. -/
def deleteInput (j : sqsJob) : DeleteMessageInput :=
  { QueueUrl := some j.cfg.QueueURL, ReceiptHandle := j.msg.ReceiptHandle }

/-- `sqsJob.Delete` from `job.go`: early `ErrAlreadyHandled` return without
touching the transport; otherwise issue the delete request; on transport
success set `handled := true` and emit a debug log whose `jid` field
evaluates `j.ID()` (a panic when the message id is absent); on transport
failure return the error with the state unchanged. -/
def sqsJob.Delete (j : sqsJob) : JobOp (Option GoErr) :=
  if j.handled then ⟨.ok (some GoErr.alreadyHandled), j, []⟩
  else
    match j.svc.deleteMessage (deleteInput j) with
    | some e => ⟨.ok (some e), j, [.deleteMessage (deleteInput j)]⟩
    | none =>
      match j.msg.MessageId with
      | none => ⟨.panic nilDeref, { j with handled := true }, [.deleteMessage (deleteInput j)]⟩
      | some _ => ⟨.ok none, { j with handled := true }, [.deleteMessage (deleteInput j)]⟩

/-- The hard SQS protocol ceiling used in `sqsJob.Release`:
`int64((12 * time.Hour).Seconds()) = 43200`. -/
def hardCeiling : Int := 43200

/-- The pure clamping performed by `sqsJob.Release` on the requested
seconds: raise to `MinVisibilityTimeout`, lower to `MaxVisibilityTimeout`,
then subtract one second when the result is `≥ 43200`. -/
def releaseClamp (cfg : Config) (secs : Int) : Int :=
  let s1 := if secs < cfg.Job.MinVisibilityTimeout then cfg.Job.MinVisibilityTimeout else secs
  let s2 := if s1 > cfg.Job.MaxVisibilityTimeout then cfg.Job.MaxVisibilityTimeout else s1
  if s2 ≥ hardCeiling then s2 - 1 else s2

/-- The `sqs.ChangeMessageVisibilityInput` built by `sqsJob.Release`: it
carries the clamped visibility timeout. -/
def releaseInput (j : sqsJob) (secs : Int) : ChangeMessageVisibilityInput :=
  { QueueUrl := some j.cfg.QueueURL
    ReceiptHandle := j.msg.ReceiptHandle
    VisibilityTimeout := some (releaseClamp j.cfg secs) }

/-- `sqsJob.Release` from `job.go`: early `ErrAlreadyHandled` return without
touching the transport; otherwise clamp (the below-minimum and
above-maximum debug logs evaluate `j.ID()`, hence panic when the message id
is absent), issue the change-visibility request with the clamped value, and
on transport success set `handled := true` (the success debug log also
evaluates `j.ID()`). -/
def sqsJob.Release (j : sqsJob) (secs : Int) : JobOp (Option GoErr) :=
  if j.handled then ⟨.ok (some GoErr.alreadyHandled), j, []⟩
  else if secs < j.cfg.Job.MinVisibilityTimeout ∧ j.msg.MessageId = none then
    ⟨.panic nilDeref, j, []⟩
  else if (if secs < j.cfg.Job.MinVisibilityTimeout then j.cfg.Job.MinVisibilityTimeout else secs)
            > j.cfg.Job.MaxVisibilityTimeout ∧ j.msg.MessageId = none then
    ⟨.panic nilDeref, j, []⟩
  else
    match j.svc.changeMessageVisibility (releaseInput j secs) with
    | some e => ⟨.ok (some e), j, [.changeMessageVisibility (releaseInput j secs)]⟩
    | none =>
      match j.msg.MessageId with
      | none =>
        ⟨.panic nilDeref, { j with handled := true },
          [.changeMessageVisibility (releaseInput j secs)]⟩
      | some _ =>
        ⟨.ok none, { j with handled := true },
          [.changeMessageVisibility (releaseInput j secs)]⟩

/-- `sqsJob.Backoff` from `job.go`: propagate `Tries` failures (and panics)
without touching the transport; otherwise emit a debug log whose `jid`
field evaluates `j.ID()`, compute `BackoffCalc tries`, and delegate to
`Release`. -/
def sqsJob.Backoff (j : sqsJob) : JobOp (Option GoErr) :=
  match sqsJob.Tries j with
  | .panic m => ⟨.panic m, j, []⟩
  | .ok (_, some e) => ⟨.ok (some e), j, []⟩
  | .ok (tries, none) =>
    match j.msg.MessageId with
    | none => ⟨.panic nilDeref, j, []⟩
    | some _ => sqsJob.Release j (j.cfg.Job.BackoffCalc tries)

/-- The default `BackoffCalc` installed by `NewDefaultConfig`
(`config.go`).  `r` stands for the value drawn by `rand.Int63n 30`
(so `0 ≤ r < 30`), re-seeded from the clock on each call.  The `float64`
round trip (`math.Pow`, the conversions) is exact on these integer ranges,
so the arithmetic is carried out in `Int`.  The Go parameter `try` is
`tries` here (`try` is reserved).  The source computes
`jitter := rand.Int63n(30)*try + 1` (its own comment states
`rand(30) * (retry_count + 1)`). -/
def defaultBackoffCalc (r : Int) (tries : Int) : Int :=
  let pow := tries ^ 3
  let jitter := r * tries + 1
  pow + 15 + jitter

/-- The observability counters touched per handler invocation in
`sqsWorker.handleResponse` (`goller.go`): `jobErrorTotal`,
`jobPanicTotal`, `jobProcessedTotal`. -/
structure Counters where
  errors : Nat
  panics : Nat
  processed : Nat
deriving DecidableEq, Repr

/-- Pointwise sum of counters. -/
def addCounters (a b : Counters) : Counters :=
  ⟨a.errors + b.errors, a.panics + b.panics, a.processed + b.processed⟩

/-- Observable outcome of one user-handler invocation: either the handler
panicked (caught by the deferred `recover`), or it returned `err` leaving
the `handled` flag of the job at `handledAfter`. -/
inductive HandlerRun where
  | panicked
  | returned (err : Option GoErr) (handledAfter : Bool)

/-- The per-invocation counter increments performed by the goroutine body
in `sqsWorker.handleResponse` (`goller.go`): a recovered panic increments
`jobPanicTotal` and `jobErrorTotal` (the code after the handler call never
runs); otherwise a returned error increments `jobErrorTotal`, and then an
unhandled job increments `jobErrorTotal` while a handled one increments
`jobProcessedTotal`. -/
def invocationCounts : HandlerRun → Counters
  | .panicked => ⟨1, 1, 0⟩
  | .returned err handledAfter =>
    let errFromReturn := if err.isSome then 1 else 0
    let errFromUnhandled := if handledAfter then 0 else 1
    ⟨errFromReturn + errFromUnhandled, 0, if handledAfter then 1 else 0⟩

/-- `sqsWorker.handleResponse` (`goller.go`), projected onto its counter
effects.  For each message it builds a job with `NewJob` and evaluates
`w.log.WithField("jid", j.ID())` *outside* the `recover`
block of the goroutine, so an absent message id panics the dispatch loop itself: that
unrecovered crash is the `none` result.  Otherwise the user handler runs
under `recover` and its counter increments are accumulated. -/
def handleResponse (cfg : Config) (svc : SQSAPI) (msgs : List Message)
    (handler : sqsJob → HandlerRun) : Option Counters :=
  match msgs with
  | [] => some ⟨0, 0, 0⟩
  | m :: rest =>
    match m.MessageId with
    | none => none
    | some _ =>
      let c := invocationCounts (handler (NewJob cfg m svc))
      match handleResponse cfg svc rest handler with
      | none => none
      | some cs => some (addCounters c cs)

/-- One answer of the transport to a receive request of the consumer loop. -/
inductive PollResult where
  | failure (e : GoErr)
  | success (msgs : List Message)

/-- Observable events of one consumer loop (`sqsWorker.receive`), in
order: a transport receive call, the error-retry sleep (carrying the
slept duration), the run-slowly pause, a dispatch of a non-empty batch to
`handleResponse`, and the loop returning. -/
inductive LoopEvent where
  | receiveCall
  | sleepErr (d : Int)
  | sleepSlowly (d : Int)
  | dispatch (n : Nat)
  | stopped
deriving DecidableEq, Repr

/-- `sqsWorker.receive` (`goller.go`) as a trace of `LoopEvent`s, driven by
the successive transport answers `polls` (the context-done branch is not
modelled: the traces below are runs on which cancellation never fires).
Each iteration issues the receive request; on failure the loop stops when
`RunOnce` is set (no sleep), otherwise sleeps `RetrievalErrWait` and polls
again; on success a non-empty batch is dispatched, then the `RunSlowly`
pause applies if configured, then the loop stops when `RunOnce` is set.
`fuel` bounds the number of iterations unfolded; the trace is cut short
(never extended) when fuel or modelled transport answers run out. -/
def receiveLoop (fuel : Nat) (cfg : Config) (polls : List PollResult) : List LoopEvent :=
  match fuel with
  | 0 => []
  | fuel + 1 =>
    match polls with
    | [] => []
    | p :: rest =>
      LoopEvent.receiveCall ::
        match p with
        | .failure _ =>
          if cfg.Consumer.RunOnce then [LoopEvent.stopped]
          else LoopEvent.sleepErr cfg.Consumer.RetrievalErrWait :: receiveLoop fuel cfg rest
        | .success msgs =>
          (if msgs.isEmpty then [] else [LoopEvent.dispatch msgs.length]) ++
          (if cfg.Consumer.RunSlowly > 0 then [LoopEvent.sleepSlowly cfg.Consumer.RunSlowly] else []) ++
          (if cfg.Consumer.RunOnce then [LoopEvent.stopped] else receiveLoop fuel cfg rest)

/-! ## Concrete fixtures for witnesses and counterexamples -/

/-- A concrete configuration with the default visibility bounds of
`NewDefaultConfig` (min 10 s, max 43200 s) and a constant backoff. -/
def cfgFix : Config :=
  { Consumer := { Count := 1, RetrievalErrWait := 30, RetrievalMaxNumberOfMessages := 10,
                  RetrievalVisibilityTimeout := 600, RetrievalWaitTimeSeconds := 20,
                  RunOnce := true, RunSlowly := 0 }
    Job := { BackoffCalc := fun _ => 12, MinVisibilityTimeout := 10, MaxVisibilityTimeout := 43200 }
    QueueURL := "q" }

/-- Like `cfgFix` but with `MaxVisibilityTimeout = 86400` (24 h), a value the
config type admits. -/
def cfgWide : Config :=
  { cfgFix with Job := { cfgFix.Job with MaxVisibilityTimeout := 86400 } }

/-- A transport stub on which every request succeeds. -/
def svcOK : SQSAPI :=
  { deleteMessage := fun _ => none, changeMessageVisibility := fun _ => none }

/-- A message with an id and a reported delivery count of 3. -/
def msgCount3 : Message :=
  { MessageId := some "123", Body := some "hello", ReceiptHandle := some "rh",
    MessageAttributes := [], Attributes := [(approximateReceiveCount, "3")] }

/-- A message with an id but no attributes at all. -/
def msgNoCount : Message :=
  { MessageId := some "123", Body := some "hello", ReceiptHandle := some "rh",
    MessageAttributes := [], Attributes := [] }

/-- A message whose reported delivery count is the string `"-1"`. -/
def msgNegCount : Message :=
  { MessageId := some "123", Body := some "hello", ReceiptHandle := some "rh",
    MessageAttributes := [], Attributes := [(approximateReceiveCount, "-1")] }

/-- A message carrying no identifier (`MessageId` nil). -/
def msgNoId : Message :=
  { MessageId := none, Body := some "hello", ReceiptHandle := some "rh",
    MessageAttributes := [], Attributes := [] }

/-- A message whose sender-set attribute `"foo"` has a nil `StringValue`,
while the system attributes also carry `"foo"`. -/
def msgNilAttr : Message :=
  { MessageId := some "123", Body := some "hello", ReceiptHandle := some "rh",
    MessageAttributes := [("foo", { StringValue := none })], Attributes := [("foo", "sys")] }

/-! ## Claim theorems -/

/-- Claim C8: per-invocation outcome accounting in `handleResponse` — a
recovered panic counts as both a panic and a handler error (and nothing
else); a returned error counts as a handler error; an unhandled job after
return counts as a handler error (so error return plus unhandled counts the
error twice); a handled job counts as processed. -/
theorem c8_outcome_accounting :
    invocationCounts HandlerRun.panicked = { errors := 1, panics := 1, processed := 0 } ∧
    (∀ e : GoErr, invocationCounts (HandlerRun.returned (some e) false) =
      { errors := 2, panics := 0, processed := 0 }) ∧
    (∀ e : GoErr, invocationCounts (HandlerRun.returned (some e) true) =
      { errors := 1, panics := 0, processed := 1 }) ∧
    invocationCounts (HandlerRun.returned none false) =
      { errors := 1, panics := 0, processed := 0 } ∧
    invocationCounts (HandlerRun.returned none true) =
      { errors := 0, panics := 0, processed := 1 } :=
  ⟨rfl, fun _ => rfl, fun _ => rfl, rfl, rfl⟩

/-- Claim C9: the claim (and the comment in the source) state the default
backoff delay is `attempt³ + 15 + jitter` with `jitter` proportional to
`(attempt + 1)`, giving randomized spread at every attempt count including
attempt 0.  The code computes `jitter = r * try + 1`, so at attempt 0 the
delay is the constant 16 for every random draw `r` — no spread — and it
differs from the commented formula (e.g. at `r = 5`). -/
theorem c9_default_backoff_try0 :
    (∀ r : Int, defaultBackoffCalc r 0 = 16) ∧
    defaultBackoffCalc 5 0 ≠ 0 ^ 3 + 15 + 5 * (0 + 1) := by
  constructor
  · intro r
    simp [defaultBackoffCalc]
  · decide

/-- Claim C10: `Attribute key` dereferences the `StringValue` of a
sender-set entry unconditionally — when the entry is present with a nil
string value it panics instead of falling through to the system attributes
or returning `("", false)`; in every other case it is total: present with a
string value yields `(value, true)`, fall-through to a system attribute
yields `(value, true)`, and absence from both yields `("", false)`. -/
theorem c10_attribute_nil_panics :
    ∀ (cfg : Config) (svc : SQSAPI) (m : Message) (key : String),
      (∀ v, m.MessageAttributes.lookup key = some v → v.StringValue = none →
        sqsJob.Attribute (NewJob cfg m svc) key = .panic nilDeref) ∧
      (∀ v s, m.MessageAttributes.lookup key = some v → v.StringValue = some s →
        sqsJob.Attribute (NewJob cfg m svc) key = .ok (s, true)) ∧
      (∀ a, m.MessageAttributes.lookup key = none → m.Attributes.lookup key = some a →
        sqsJob.Attribute (NewJob cfg m svc) key = .ok (a, true)) ∧
      (m.MessageAttributes.lookup key = none → m.Attributes.lookup key = none →
        sqsJob.Attribute (NewJob cfg m svc) key = .ok ("", false)) := by
  intro cfg svc m key
  refine ⟨?_, ?_, ?_, ?_⟩
  · intro v h1 h2
    simp [sqsJob.Attribute, NewJob, h1, h2]
  · intro v s h1 h2
    simp [sqsJob.Attribute, NewJob, h1, h2]
  · intro a h1 h2
    simp [sqsJob.Attribute, NewJob, h1, h2]
  · intro h1 h2
    simp [sqsJob.Attribute, NewJob, h1, h2]

/-- Witness for C10: on `msgNilAttr` the sender map holds `"foo"` with nil
`StringValue` and `Attribute "foo"` panics. -/
theorem c10_attribute_nil_panics_witness :
    sqsJob.Attribute (NewJob cfgFix msgNilAttr svcOK) "foo" = .panic nilDeref :=
  (c10_attribute_nil_panics cfgFix svcOK msgNilAttr "foo").1
    { StringValue := none } (by decide) rfl

/-- Claim C4 counterexample: on a message whose reported delivery count is
`"-1"` (which `strconv.ParseInt` accepts), `Tries` returns `-1` with no
error — the code only decrements positive values and never raises to 0 —
so the result is negative and differs from `max(reported − 1, 0) = 0`,
refuting the claimed formula and "never negative". -/
theorem c4_counterexample :
    sqsJob.Tries (NewJob cfgFix msgNegCount svcOK) = .ok (-1, none) ∧
    (-1 : Int) < 0 ∧ (-1 : Int) ≠ max (-1 - 1) 0 := by
  refine ⟨by decide, by decide, by decide⟩

/-- Claim C4 (amended): `Tries` fails with an error when the delivery-count
attribute is absent from both maps or unparsable; when it parses cleanly to
a *nonnegative* value `n` it returns `max (n − 1) 0` (so reported 3 yields
2); a negative parsed value is returned unchanged, so the result can be
negative. -/
theorem c4_tries_semantics :
    ∀ (cfg : Config) (svc : SQSAPI) (m : Message) (s : String) (n : Int) (e : GoErr),
      (m.MessageAttributes.lookup approximateReceiveCount = none →
       m.Attributes.lookup approximateReceiveCount = none →
        sqsJob.Tries (NewJob cfg m svc) =
          .ok (0, some (GoErr.errorNew "failed to get recieve count off sqs message"))) ∧
      (m.MessageAttributes.lookup approximateReceiveCount = none →
       m.Attributes.lookup approximateReceiveCount = some s →
       strconvParseInt s = (n, some e) →
        sqsJob.Tries (NewJob cfg m svc) = .ok (if n > 0 then n - 1 else n, some e)) ∧
      (m.MessageAttributes.lookup approximateReceiveCount = none →
       m.Attributes.lookup approximateReceiveCount = some s →
       strconvParseInt s = (n, none) → 0 ≤ n →
        sqsJob.Tries (NewJob cfg m svc) = .ok (max (n - 1) 0, none)) := by
  intro cfg svc m s n e
  refine ⟨?_, ?_, ?_⟩
  · intro h1 h2
    simp [sqsJob.Tries, sqsJob.Attribute, NewJob, h1, h2]
  · intro h1 h2 h3
    simp [sqsJob.Tries, sqsJob.Attribute, NewJob, h1, h2, h3]
  · intro h1 h2 h3 h4
    simp only [sqsJob.Tries, sqsJob.Attribute, NewJob, h1, h2, h3]
    have : (if n > 0 then n - 1 else n) = max (n - 1) 0 := by omega
    simp [this]

/-- Witness for C4: a message with reported delivery count `"3"` yields
attempt count 2 with no error. -/
theorem c4_tries_semantics_witness :
    sqsJob.Tries (NewJob cfgFix msgCount3 svcOK) = .ok (2, none) := by
  have h := (c4_tries_semantics cfgFix svcOK msgCount3 "3" 3 GoErr.alreadyHandled).2.2
    (by decide) (by decide) (by decide) (by norm_num)
  simpa using h

/-- Claim C5: `Backoff` computes `Tries` and, when it succeeds with value
`t` (and the message has an id for the debug log), delegates to `Release`
with exactly `BackoffCalc t`; when `Tries` fails, `Backoff` returns that
error with the job unchanged and no transport call. -/
theorem c5_backoff_delegates :
    ∀ (j : sqsJob) (t : Int) (i : String),
      (sqsJob.Tries j = .ok (t, none) → j.msg.MessageId = some i →
        sqsJob.Backoff j = sqsJob.Release j (j.cfg.Job.BackoffCalc t)) ∧
      (∀ e, sqsJob.Tries j = .ok (t, some e) →
        sqsJob.Backoff j = ⟨.ok (some e), j, []⟩) := by
  intro j t i
  constructor
  · intro h1 h2
    simp [sqsJob.Backoff, h1, h2]
  · intro e h1
    simp [sqsJob.Backoff, h1]

/-- Witness for C5: on a fresh job with reported delivery count 3
(attempt count 2) and `BackoffCalc = const 12`, `Backoff` equals
`Release 12`. -/
theorem c5_backoff_delegates_witness :
    sqsJob.Backoff (NewJob cfgFix msgCount3 svcOK) =
      sqsJob.Release (NewJob cfgFix msgCount3 svcOK) 12 :=
  (c5_backoff_delegates (NewJob cfgFix msgCount3 svcOK) 2 "123").1 (by decide) rfl

/-- Claim C3: the `handled` flag starts false at `NewJob`; a terminal
transport call that fails leaves the job unchanged (still unhandled) and
returns the transport error; a successful one sets `handled := true`; and
once handled every terminal operation leaves the state unchanged, so the
false-to-true transition happens at most once and only on a successful
delete or extend-visibility call. -/
theorem c3_handled_transitions :
    ∀ (cfg : Config) (svc : SQSAPI) (m : Message) (j : sqsJob) (secs : Int)
      (e : GoErr) (i : String),
      (NewJob cfg m svc).handled = false ∧
      (j.handled = false → j.svc.deleteMessage (deleteInput j) = some e →
        sqsJob.Delete j = ⟨.ok (some e), j, [.deleteMessage (deleteInput j)]⟩) ∧
      (j.handled = false → j.svc.deleteMessage (deleteInput j) = none →
       j.msg.MessageId = some i →
        sqsJob.Delete j =
          ⟨.ok none, { j with handled := true }, [.deleteMessage (deleteInput j)]⟩) ∧
      (j.handled = false → j.msg.MessageId = some i →
       j.svc.changeMessageVisibility (releaseInput j secs) = some e →
        sqsJob.Release j secs =
          ⟨.ok (some e), j, [.changeMessageVisibility (releaseInput j secs)]⟩) ∧
      (j.handled = false → j.msg.MessageId = some i →
       j.svc.changeMessageVisibility (releaseInput j secs) = none →
        sqsJob.Release j secs =
          ⟨.ok none, { j with handled := true },
            [.changeMessageVisibility (releaseInput j secs)]⟩) ∧
      (j.handled = true →
        (sqsJob.Delete j).job = j ∧ (sqsJob.Release j secs).job = j ∧
        (sqsJob.Backoff j).job = j) := by
  intro cfg svc m j secs e i
  refine ⟨rfl, ?_, ?_, ?_, ?_, ?_⟩
  · intro h he
    simp [sqsJob.Delete, h, he]
  · intro h he hid
    simp [sqsJob.Delete, h, he, hid]
  · intro h hid he
    simp [sqsJob.Release, h, hid, he]
  · intro h hid he
    simp [sqsJob.Release, h, hid, he]
  · intro h
    refine ⟨?_, ?_, ?_⟩
    · simp [sqsJob.Delete, h]
    · simp [sqsJob.Release, h]
    · cases ht : sqsJob.Tries j with
      | panic msg => simp [sqsJob.Backoff, ht]
      | ok p =>
        obtain ⟨t, err⟩ := p
        cases err with
        | some er => simp [sqsJob.Backoff, ht]
        | none =>
          cases hid : j.msg.MessageId with
          | none => simp [sqsJob.Backoff, ht, hid]
          | some idv => simp [sqsJob.Backoff, sqsJob.Release, ht, hid, h]

/-- A transport stub whose delete request always fails. -/
def svcDelErr : SQSAPI :=
  { deleteMessage := fun _ => some (GoErr.errorNew "i just errored")
    changeMessageVisibility := fun _ => none }

/-- Witness for C3: a fresh job starts unhandled; a failing delete returns
the transport error and leaves the job unchanged; a succeeding delete on a
fresh job sets `handled := true`. -/
theorem c3_handled_transitions_witness :
    (NewJob cfgFix msgCount3 svcDelErr).handled = false ∧
    sqsJob.Delete (NewJob cfgFix msgCount3 svcDelErr) =
      ⟨.ok (some (GoErr.errorNew "i just errored")), NewJob cfgFix msgCount3 svcDelErr,
        [.deleteMessage (deleteInput (NewJob cfgFix msgCount3 svcDelErr))]⟩ ∧
    sqsJob.Delete (NewJob cfgFix msgCount3 svcOK) =
      ⟨.ok none, { NewJob cfgFix msgCount3 svcOK with handled := true },
        [.deleteMessage (deleteInput (NewJob cfgFix msgCount3 svcOK))]⟩ :=
  ⟨(c3_handled_transitions cfgFix svcDelErr msgCount3 (NewJob cfgFix msgCount3 svcDelErr) 0
      GoErr.alreadyHandled "123").1,
   (c3_handled_transitions cfgFix svcDelErr msgCount3 (NewJob cfgFix msgCount3 svcDelErr) 0
      (GoErr.errorNew "i just errored") "123").2.1 rfl rfl,
   (c3_handled_transitions cfgFix svcOK msgCount3 (NewJob cfgFix msgCount3 svcOK) 0
      GoErr.alreadyHandled "123").2.2.1 rfl rfl rfl⟩

/-- The job obtained by successfully deleting a fresh job built on a
message with no attributes: it is handled and exactly one transport call
was issued. -/
def jNoCountHandled : sqsJob := (sqsJob.Delete (NewJob cfgFix msgNoCount svcOK)).job

/-- Claim C1 counterexample: on a message with no delivery-count attribute,
`Delete` succeeds (one transport call, job handled); the second terminal
call `Backoff` then returns the `Tries` failure `errorNew "failed to get
recieve count off sqs message"` — not the dedicated `ErrAlreadyHandled` —
though it still issues no transport call. -/
theorem c1_counterexample :
    (sqsJob.Delete (NewJob cfgFix msgNoCount svcOK)).result = .ok none ∧
    (sqsJob.Delete (NewJob cfgFix msgNoCount svcOK)).calls.length = 1 ∧
    jNoCountHandled.handled = true ∧
    (sqsJob.Backoff jNoCountHandled).result =
      .ok (some (GoErr.errorNew "failed to get recieve count off sqs message")) ∧
    (sqsJob.Backoff jNoCountHandled).calls = [] ∧
    GoErr.errorNew "failed to get recieve count off sqs message" ≠ GoErr.alreadyHandled := by
  refine ⟨by decide, by decide, by decide, by decide, by decide, by decide⟩

/-- Claim C1 (amended): on a handled job, a second `Delete` or `Release`
returns exactly `ErrAlreadyHandled` with the state unchanged and no
transport call; a second `Backoff` never issues a transport call, and
returns `ErrAlreadyHandled` provided its attempt count is determinable
(`Tries` succeeds) and the message carries an id — otherwise it returns
the `Tries` failure instead. -/
theorem c1_second_terminal_call :
    ∀ (j : sqsJob) (secs : Int), j.handled = true →
      sqsJob.Delete j = ⟨.ok (some GoErr.alreadyHandled), j, []⟩ ∧
      sqsJob.Release j secs = ⟨.ok (some GoErr.alreadyHandled), j, []⟩ ∧
      (sqsJob.Backoff j).calls = [] ∧
      (∀ t i, sqsJob.Tries j = .ok (t, none) → j.msg.MessageId = some i →
        sqsJob.Backoff j = ⟨.ok (some GoErr.alreadyHandled), j, []⟩) := by
  intro j secs h
  refine ⟨by simp [sqsJob.Delete, h], by simp [sqsJob.Release, h], ?_, ?_⟩
  · cases ht : sqsJob.Tries j with
    | panic msg => simp [sqsJob.Backoff, ht]
    | ok p =>
      obtain ⟨t, err⟩ := p
      cases err with
      | some er => simp [sqsJob.Backoff, ht]
      | none =>
        cases hid : j.msg.MessageId with
        | none => simp [sqsJob.Backoff, ht, hid]
        | some idv => simp [sqsJob.Backoff, sqsJob.Release, ht, hid, h]
  · intro t i ht hid
    simp [sqsJob.Backoff, sqsJob.Release, ht, hid, h]

/-- The job obtained by successfully deleting a fresh job built on a
message whose delivery count is reported as 3. -/
def jCount3Handled : sqsJob := (sqsJob.Delete (NewJob cfgFix msgCount3 svcOK)).job

/-- Witness for C1: after a successful `Delete`, a second `Delete`, a
`Release`, and a `Backoff` (attempt count determinable) all return
`ErrAlreadyHandled` with no transport call. -/
theorem c1_second_terminal_call_witness :
    sqsJob.Delete jCount3Handled = ⟨.ok (some GoErr.alreadyHandled), jCount3Handled, []⟩ ∧
    sqsJob.Release jCount3Handled 50 = ⟨.ok (some GoErr.alreadyHandled), jCount3Handled, []⟩ ∧
    sqsJob.Backoff jCount3Handled = ⟨.ok (some GoErr.alreadyHandled), jCount3Handled, []⟩ :=
  ⟨(c1_second_terminal_call jCount3Handled 50 rfl).1,
   (c1_second_terminal_call jCount3Handled 50 rfl).2.1,
   (c1_second_terminal_call jCount3Handled 50 rfl).2.2.2 2 "123" (by decide) rfl⟩

/-- Claim C2 counterexample: with `Min = 10`, `Max = 86400` (a configuration
the config type admits) a fresh `Release 50000` passes both config clamps
untouched and the ceiling step merely decrements, sending 49999 to the
transport — not 43199 as the claim requires for every `x ≥ 43200`; and
`Release 90000` clamps to `Max = 86400` and then decrements to 86399 — not
exactly `Max` as the claim requires for `x > Max`. -/
theorem c2_counterexample :
    (sqsJob.Release (NewJob cfgWide msgNoCount svcOK) 50000).calls =
      [.changeMessageVisibility
        { QueueUrl := some "q", ReceiptHandle := some "rh", VisibilityTimeout := some 49999 }] ∧
    (49999 : Int) ≠ 43199 ∧
    (sqsJob.Release (NewJob cfgWide msgNoCount svcOK) 90000).calls =
      [.changeMessageVisibility
        { QueueUrl := some "q", ReceiptHandle := some "rh", VisibilityTimeout := some 86399 }] ∧
    (86399 : Int) ≠ 86400 := by
  refine ⟨by decide, by decide, by decide, by decide⟩

/-- Claim C2 (amended): `Release` sends to the transport exactly
`releaseClamp`, which clamps to the configured minimum, then to the
configured maximum, and then subtracts exactly one second when the
config-clamped value is still `≥ 43200` (it does not force 43199).  The
specific equalities of the claim hold under the default-shaped bounds:
when `Min ≤ Max` and `Min < 43200`, `x < Min` sends exactly `Min`; when
`Max < 43200`, `x > Max` sends exactly `Max`; and when `Max = 43200`
(its default), `x ≥ 43200` sends exactly 43199. -/
theorem c2_release_clamping :
    ∀ (j : sqsJob) (secs : Int) (i : String),
      (j.handled = false → j.msg.MessageId = some i →
        (sqsJob.Release j secs).calls = [.changeMessageVisibility (releaseInput j secs)]) ∧
      (secs < j.cfg.Job.MinVisibilityTimeout →
       j.cfg.Job.MinVisibilityTimeout ≤ j.cfg.Job.MaxVisibilityTimeout →
       j.cfg.Job.MinVisibilityTimeout < hardCeiling →
        releaseClamp j.cfg secs = j.cfg.Job.MinVisibilityTimeout) ∧
      (secs > j.cfg.Job.MaxVisibilityTimeout →
       j.cfg.Job.MaxVisibilityTimeout < hardCeiling →
        releaseClamp j.cfg secs = j.cfg.Job.MaxVisibilityTimeout) ∧
      (secs ≥ hardCeiling → j.cfg.Job.MaxVisibilityTimeout = hardCeiling →
        releaseClamp j.cfg secs = hardCeiling - 1) := by
  intro j secs i
  refine ⟨?_, ?_, ?_, ?_⟩
  · intro h hid
    cases hc : j.svc.changeMessageVisibility (releaseInput j secs) with
    | none => simp [sqsJob.Release, h, hid, hc]
    | some e => simp [sqsJob.Release, h, hid, hc]
  · intro h1 h2 h3
    dsimp only [releaseClamp, hardCeiling] at *
    split_ifs <;> omega
  · intro h1 h2
    dsimp only [releaseClamp, hardCeiling] at *
    split_ifs <;> omega
  · intro h1 h2
    dsimp only [releaseClamp, hardCeiling] at *
    split_ifs <;> omega

/-- Witness for C2: with the default bounds (`Min = 10`, `Max = 43200`) a
fresh `Release 43200` issues exactly one transport call carrying 43199,
and `Release 5` (below the minimum) carries exactly 10. -/
theorem c2_release_clamping_witness :
    (sqsJob.Release (NewJob cfgFix msgNoCount svcOK) 43200).calls =
      [.changeMessageVisibility
        (releaseInput (NewJob cfgFix msgNoCount svcOK) 43200)] ∧
    releaseClamp cfgFix 43200 = 43199 ∧
    releaseClamp cfgFix 5 = 10 := by
  have h := c2_release_clamping (NewJob cfgFix msgNoCount svcOK) 43200 "123"
  have h5 := c2_release_clamping (NewJob cfgFix msgNoCount svcOK) 5 "123"
  exact ⟨h.1 rfl rfl, h.2.2.2 (by decide) (by decide),
    h5.2.1 (by decide) (by decide) (by decide)⟩

/-- Claim C6 counterexample: a batch containing a message with no
identifier crashes the dispatch loop — `handleResponse` evaluates
`j.ID()` for the log field outside the goroutine recover block, so the
nil dereference is an unrecovered panic (`none`), not a handler-level
error. -/
theorem c6_counterexample :
    handleResponse cfgFix svcOK [msgNoId] (fun _ => HandlerRun.returned none true) = none := by
  rfl

/-- Claim C6 (amended): for batches in which every message carries an
identifier, no dispatch step is fatal — `handleResponse` completes with
counters for every handler behaviour (errors and recovered panics
included); only a message with an absent identifier crashes the loop. -/
theorem c6_no_crash_with_ids :
    ∀ (cfg : Config) (svc : SQSAPI) (msgs : List Message) (handler : sqsJob → HandlerRun),
      (∀ m ∈ msgs, m.MessageId ≠ none) →
      ∃ c, handleResponse cfg svc msgs handler = some c := by
  intro cfg svc msgs handler h
  induction msgs with
  | nil => exact ⟨{ errors := 0, panics := 0, processed := 0 }, rfl⟩
  | cons m rest ih =>
    obtain ⟨c, hc⟩ := ih (fun x hx => h x (List.mem_cons_of_mem m hx))
    cases hid : m.MessageId with
    | none => exact absurd hid (h m (List.mem_cons_self m rest))
    | some i =>
      exact ⟨addCounters (invocationCounts (handler (NewJob cfg m svc))) c,
        by simp [handleResponse, hid, hc]⟩

/-- Witness for C6: a batch of one identified message processed by a
panicking handler still completes the dispatch (with the panic recovered
and counted). -/
theorem c6_no_crash_with_ids_witness :
    ∃ c, handleResponse cfgFix svcOK [msgCount3] (fun _ => HandlerRun.panicked) = some c :=
  c6_no_crash_with_ids cfgFix svcOK [msgCount3] (fun _ => HandlerRun.panicked)
    (by intro m hm; rw [List.mem_singleton] at hm; subst hm; decide)

/-- Claim C7: when the receive transport call fails, a `run-once` loop
stops immediately — the trace is the receive call then the return, with no
sleep event and exactly one receive call; otherwise the loop sleeps for
`RetrievalErrWait` and then re-enters polling. -/
theorem c7_receive_failure :
    ∀ (cfg : Config) (e : GoErr) (rest : List PollResult) (fuel : Nat),
      (cfg.Consumer.RunOnce = true →
        receiveLoop (fuel + 1) cfg (PollResult.failure e :: rest) =
          [LoopEvent.receiveCall, LoopEvent.stopped] ∧
        (receiveLoop (fuel + 1) cfg (PollResult.failure e :: rest)).count
          LoopEvent.receiveCall = 1) ∧
      (cfg.Consumer.RunOnce = false →
        receiveLoop (fuel + 1) cfg (PollResult.failure e :: rest) =
          LoopEvent.receiveCall :: LoopEvent.sleepErr cfg.Consumer.RetrievalErrWait ::
            receiveLoop fuel cfg rest) := by
  intro cfg e rest fuel
  constructor
  · intro h
    constructor
    · simp [receiveLoop, h]
    · simp [receiveLoop, h, List.count_cons]
  · intro h
    simp [receiveLoop, h]

/-- Witness for C7: with `run-once` enabled, a failing receive produces the
two-event trace with a single receive call; with it disabled, a failing
receive is followed by the 30-unit error-retry sleep and a further poll. -/
theorem c7_receive_failure_witness :
    receiveLoop 1 cfgFix [PollResult.failure GoErr.alreadyHandled] =
      [LoopEvent.receiveCall, LoopEvent.stopped] ∧
    (receiveLoop 1 cfgFix [PollResult.failure GoErr.alreadyHandled]).count
      LoopEvent.receiveCall = 1 ∧
    receiveLoop 2 { cfgFix with
        Consumer := { cfgFix.Consumer with RunOnce := false } }
        [PollResult.failure GoErr.alreadyHandled, PollResult.failure GoErr.alreadyHandled] =
      LoopEvent.receiveCall :: LoopEvent.sleepErr 30 ::
        receiveLoop 1 { cfgFix with Consumer := { cfgFix.Consumer with RunOnce := false } }
          [PollResult.failure GoErr.alreadyHandled] :=
  ⟨((c7_receive_failure cfgFix GoErr.alreadyHandled [] 0).1 rfl).1,
   ((c7_receive_failure cfgFix GoErr.alreadyHandled [] 0).1 rfl).2,
   (c7_receive_failure { cfgFix with Consumer := { cfgFix.Consumer with RunOnce := false } }
      GoErr.alreadyHandled [PollResult.failure GoErr.alreadyHandled] 1).2 rfl⟩
